import Mathlib

/-!
Formal model of the pkger resource-package core (`pkger/models.go`):
identity resolution for buckets and labels, the per-label association
index, diff-record construction, and summary construction.

Conventions of the embedding:
- `influxdb.ID` (a 64-bit identifier with zero sentinel) is modelled as
  `Nat`; no arithmetic is ever performed on identifiers, only equality.
- `time.Duration` is modelled as `Int`.
- `influxdb.ResourceType` (a string type) is modelled as `String`.
- A Go `map` is modelled as an association list with at most one entry
  per key; a `nil` map is `Option.none`, distinguished from an empty map.
- The untyped `interface{}` payload of an association entry is modelled
  by the sum type `dynVal` (a bucket reference, or anything else); a
  `nil` interface value is `Option.none`.
- A possibly-`nil` `*label` receiver is modelled as `Option label`.
-/

namespace Pkger

/-- Modelled from the spec: `influxdb.Bucket`, the platform bucket record
(identity, org, name, description, retention period). The platform types
live outside this package; only the fields the package reads are kept. -/
structure InfluxBucket where
  ID : Nat
  OrgID : Nat
  Name : String
  Description : String
  RetentionPeriod : Int
deriving DecidableEq

/-- Modelled from the spec: `influxdb.Label`, the platform label record
(identity, org, name, and a string-to-string property map). -/
structure InfluxLabel where
  ID : Nat
  OrgID : Nat
  Name : String
  Properties : List (String × String)
deriving DecidableEq

/-- Modelled from the spec: `influxdb.LabelMapping`, a platform record
linking a label to a resource of a given type. -/
structure LabelMapping where
  LabelID : Nat
  ResourceID : Nat
  ResourceType : String
deriving DecidableEq

/-- Modelled from the spec: `influxdb.BucketsResourceType`, the resource
type tag for buckets. -/
def BucketsResourceType : String := "buckets"

/-- Reading a key from a Go `map[string]string`: the stored value when the
key is present, the zero value `""` otherwise. -/
def strMapGet (m : List (String × String)) (k : String) : String :=
  match m.find? (fun p => p.1 == k) with
  | some p => p.2
  | none => ""

/-- DiffBucket is a diff of an individual bucket. -/
structure DiffBucket where
  ID : Nat
  Name : String
  OldDesc : String
  NewDesc : String
  OldRetention : Int
  NewRetention : Int
deriving DecidableEq

/-- IsNew indicates whether a pkg bucket is going to be new to the platform:
`d.ID == influxdb.ID(0)`. -/
def DiffBucket.IsNew (d : DiffBucket) : Bool :=
  d.ID == 0

/-- DiffLabel is a diff of an individual label. -/
structure DiffLabel where
  ID : Nat
  Name : String
  OldColor : String
  NewColor : String
  OldDesc : String
  NewDesc : String
deriving DecidableEq

/-- IsNew indicates whether a pkg label is going to be new to the platform:
`d.ID == influxdb.ID(0)`. -/
def DiffLabel.IsNew (d : DiffLabel) : Bool :=
  d.ID == 0

/-- Key of the label association index: a (resource kind, resource name)
pair, as in `labelMapKey`. -/
structure labelMapKey where
  resType : String
  name : String
deriving DecidableEq

mutual
/-- The pkg `bucket` resource: placeholder identity, org, description,
name, retention period, the labels referencing it, and the optional
platform counterpart reference. -/
inductive bucket : Type where
  | mk : Nat → Nat → String → String → Int → List label → Option InfluxBucket → bucket

/-- The pkg `label` resource: placeholder identity, org, name, color,
description, the association index (`none` is Go's nil map), and the
optional platform counterpart reference. -/
inductive label : Type where
  | mk : Nat → Nat → String → String → String →
      Option (List (labelMapKey × labelMapVal)) → Option InfluxLabel → label

/-- Value of the label association index: the existence flag and the
untyped resource reference (`none` is a nil interface value). -/
inductive labelMapVal : Type where
  | mk : Bool → Option dynVal → labelMapVal

/-- A non-nil `interface{}` payload: either a `*bucket` reference or a
value of any other dynamic type. -/
inductive dynVal : Type where
  | bucketRef : bucket → dynVal
  | other : dynVal
end

/-- Field `bucket.id`: the locally assigned placeholder identity. -/
def bucket.id : bucket → Nat
  | .mk x _ _ _ _ _ _ => x

/-- Field `bucket.OrgID`. -/
def bucket.OrgID : bucket → Nat
  | .mk _ x _ _ _ _ _ => x

/-- Field `bucket.Description`. -/
def bucket.Description : bucket → String
  | .mk _ _ x _ _ _ _ => x

/-- Field `bucket.Name`. -/
def bucket.Name : bucket → String
  | .mk _ _ _ x _ _ _ => x

/-- Field `bucket.RetentionPeriod`. -/
def bucket.RetentionPeriod : bucket → Int
  | .mk _ _ _ _ x _ _ => x

/-- Field `bucket.labels`: the labels referencing this bucket. -/
def bucket.labels : bucket → List label
  | .mk _ _ _ _ _ x _ => x

/-- Field `bucket.existing`: the optional platform counterpart reference. -/
def bucket.existing : bucket → Option InfluxBucket
  | .mk _ _ _ _ _ _ x => x

/-- Field `label.id`: the locally assigned placeholder identity. -/
def label.id : label → Nat
  | .mk x _ _ _ _ _ _ => x

/-- Field `label.OrgID`. -/
def label.OrgID : label → Nat
  | .mk _ x _ _ _ _ _ => x

/-- Field `label.Name`. -/
def label.Name : label → String
  | .mk _ _ x _ _ _ _ => x

/-- Field `label.Color`. -/
def label.Color : label → String
  | .mk _ _ _ x _ _ _ => x

/-- Field `label.Description`. -/
def label.Description : label → String
  | .mk _ _ _ _ x _ _ => x

/-- Field `label.mappings`: the association index; `none` is Go's `nil`
map, not yet created. -/
def label.mappings : label → Option (List (labelMapKey × labelMapVal))
  | .mk _ _ _ _ _ x _ => x

/-- Field `label.existing`: the optional platform counterpart reference. -/
def label.existing : label → Option InfluxLabel
  | .mk _ _ _ _ _ _ x => x

/-- Functional update of the `mappings` field of a label (Go mutates the
receiver in place; the embedding returns the updated value). -/
def label.withMappings : label → Option (List (labelMapKey × labelMapVal)) → label
  | .mk i o n c d _ ex, m => .mk i o n c d m ex

/-- Field `labelMapVal.exists`: true when the association is already
recorded on the platform. -/
def labelMapVal.exists_ : labelMapVal → Bool
  | .mk x _ => x

/-- Field `labelMapVal.v`: the untyped resource reference; `none` is a
`nil` interface value. -/
def labelMapVal.v : labelMapVal → Option dynVal
  | .mk _ x => x

/-- Method `labelMapVal.bucket`: `nil` check followed by the checked type
assertion `l.v.(*bucket)`; yields `(nil, false)` on a `nil` payload or a
payload that is not a bucket reference, never a failure. -/
def labelMapVal.bucket : labelMapVal → Option bucket × Bool
  | .mk _ none => (none, false)
  | .mk _ (some (dynVal.bucketRef b)) => (some b, true)
  | .mk _ (some dynVal.other) => (none, false)

/-- Method `bucket.ID`: the effective identity — the platform
counterpart's identity when the `existing` reference is non-nil, the local
placeholder otherwise. -/
def bucket.ID (b : bucket) : Nat :=
  match bucket.existing b with
  | some e => e.ID
  | none => bucket.id b

/-- Method `label.ID`: the effective identity — the platform counterpart's
identity when the `existing` reference is non-nil, the local placeholder
otherwise. -/
def label.ID (l : label) : Nat :=
  match label.existing l with
  | some e => e.ID
  | none => label.id l

/-- Entries of a Go map modelled as an association list; a `nil` map has
no entries. -/
def goMapEntries : Option (List (labelMapKey × labelMapVal)) →
    List (labelMapKey × labelMapVal)
  | none => []
  | some m => m

/-- Lookup of a key in the association index, returning the stored value
when present. Reading a `nil` map is legal in Go and finds nothing. -/
def goMapFind (m : Option (List (labelMapKey × labelMapVal)))
    (k : labelMapKey) : Option labelMapVal :=
  ((goMapEntries m).find? (fun p => p.1 == k)).map Prod.snd

/-- Reading `l.mappings[k]` in Go: the stored value when the key is
present, the zero value `labelMapVal{exists: false, v: nil}` otherwise. -/
def goMapGet (m : Option (List (labelMapKey × labelMapVal)))
    (k : labelMapKey) : labelMapVal :=
  (goMapFind m k).getD (labelMapVal.mk false none)

/-- Assignment `m[k] = v` on a Go map: replaces the entry at `k` when one
is present, appends a new entry otherwise. -/
def mapUpsert (m : List (labelMapKey × labelMapVal)) (k : labelMapKey)
    (v : labelMapVal) : List (labelMapKey × labelMapVal) :=
  if m.any (fun p => p.1 == k) then
    m.map (fun p => if p.1 == k then (k, v) else p)
  else
    m ++ [(k, v)]

/-- Function `newDiffBucket`: juxtaposes a desired bucket and the platform
bucket argument, copying the platform side into the record identity and
the old attribute values and the desired side into the name and the new
attribute values. -/
def newDiffBucket (b : bucket) (i : InfluxBucket) : DiffBucket :=
  { ID := i.ID
    Name := bucket.Name b
    OldDesc := i.Description
    NewDesc := bucket.Description b
    OldRetention := i.RetentionPeriod
    NewRetention := bucket.RetentionPeriod b }

/-- Function `newDiffLabel`: juxtaposes a desired label and the platform
label argument, reading the old color and description from the platform
label's property map. -/
def newDiffLabel (l : label) (i : InfluxLabel) : DiffLabel :=
  { ID := i.ID
    Name := label.Name l
    OldColor := strMapGet i.Properties "color"
    NewColor := label.Color l
    OldDesc := strMapGet i.Properties "description"
    NewDesc := label.Description l }

/-- Method `label.properties`: the materialized two-key property map. -/
def label.properties (l : label) : List (String × String) :=
  [("color", label.Color l), ("description", label.Description l)]

/-- SummaryBucket provides a summary of a pkg bucket: the resolved
platform view plus one association entry per referencing label. -/
structure SummaryBucket where
  Bucket : InfluxBucket
  Associations : List InfluxLabel
deriving DecidableEq

/-- Method `bucket.summarize`: the resolved view of a bucket, with one
association entry appended per label in `b.labels`. -/
def bucket.summarize (b : bucket) : SummaryBucket :=
  { Bucket :=
      { ID := bucket.ID b
        OrgID := bucket.OrgID b
        Name := bucket.Name b
        Description := bucket.Description b
        RetentionPeriod := bucket.RetentionPeriod b }
    Associations := (bucket.labels b).map (fun l =>
      { ID := label.ID l
        OrgID := label.OrgID l
        Name := label.Name l
        Properties := label.properties l }) }

/-- SummaryLabelMapping provides a summary of a label mapped with a single
resource. -/
structure SummaryLabelMapping where
  exists_ : Bool
  ResourceName : String
  LabelName : String
  mapping : LabelMapping
deriving DecidableEq

/-- Method `label.getMappedResourceID`: switches on the key's resource
type; for the bucket kind, a successful checked assertion yields the
referenced bucket's effective identity; every other path returns the zero
sentinel. -/
def label.getMappedResourceID (l : label) (k : labelMapKey) : Nat :=
  if labelMapKey.resType k = BucketsResourceType then
    match labelMapVal.bucket (goMapGet (label.mappings l) k) with
    | (some b, true) => bucket.ID b
    | _ => 0
  else 0

/-- Method `label.mappingSummary`: one record per entry of the association
index, carrying the stored existence flag, the key's resource name and
type, the label's own name and effective identity, and the §4.1-resolved
identity of the mapped resource. -/
def label.mappingSummary (l : label) : List SummaryLabelMapping :=
  (goMapEntries (label.mappings l)).map (fun p =>
    { exists_ := labelMapVal.exists_ p.2
      ResourceName := labelMapKey.name p.1
      LabelName := label.Name l
      mapping :=
        { LabelID := label.ID l
          ResourceID := label.getMappedResourceID l p.1
          ResourceType := labelMapKey.resType p.1 } })

/-- Method `label.setBucketMapping` on a possibly-nil receiver: a no-op on
a nil label; otherwise lazily creates the index and assigns the entry at
key (buckets, b.Name), overwriting any previous entry at that key. -/
def label.setBucketMapping (l : Option label) (b : bucket)
    (exists_ : Bool) : Option label :=
  match l with
  | none => none
  | some l =>
    let m := match label.mappings l with
      | none => []
      | some m0 => m0
    let key : labelMapKey := { resType := BucketsResourceType, name := bucket.Name b }
    some (label.withMappings l
      (some (mapUpsert m key (labelMapVal.mk exists_ (some (dynVal.bucketRef b))))))

/-- Key distinctness: the invariant of a Go map, at most one entry per
key; it holds of the empty index and is preserved by assignment. -/
def keysDistinct (m : List (labelMapKey × labelMapVal)) : Prop :=
  m.Pairwise (fun p q => p.1 ≠ q.1)

/-- Number of entries of the index stored at a given key. -/
def countKey (m : List (labelMapKey × labelMapVal)) (k : labelMapKey) : Nat :=
  m.countP (fun p => p.1 == k)

/-- Replacing the value stored at a key does not change the keys of any
entry, so a later lookup for the key finds the new value. -/
theorem find_replace (m : List (labelMapKey × labelMapVal)) (k : labelMapKey)
    (v : labelMapVal) (h : m.any (fun p => p.1 == k) = true) :
    (m.map (fun p => if p.1 == k then (k, v) else p)).find?
      (fun p => p.1 == k) = some (k, v) := by
  induction m with
  | nil => simp at h
  | cons a t ih =>
    by_cases ha : (a.1 == k) = true
    · simp [List.find?, ha]
    · have ht : t.any (fun p => p.1 == k) = true := by
        rcases List.any_eq_true.mp h with ⟨p, hp, hpk⟩
        rcases List.mem_cons.mp hp with rfl | hp
        · exact absurd hpk ha
        · exact List.any_eq_true.mpr ⟨p, hp, hpk⟩
      simpa [List.find?, ha] using ih ht

/-- Appending a fresh entry at the end makes it the entry a later lookup
for its key finds, since no earlier entry carries that key. -/
theorem find_append_new (m : List (labelMapKey × labelMapVal)) (k : labelMapKey)
    (v : labelMapVal) (h : m.any (fun p => p.1 == k) = false) :
    (m ++ [(k, v)]).find? (fun p => p.1 == k) = some (k, v) := by
  induction m with
  | nil => simp [List.find?]
  | cons a t ih =>
    have ha : (a.1 == k) = false := by
      cases hb : (a.1 == k)
      · rfl
      · have hx : (a :: t).any (fun p => p.1 == k) = true :=
          List.any_eq_true.mpr ⟨a, List.mem_cons_self a t, hb⟩
        rw [h] at hx
        simp at hx
    have ht : t.any (fun p => p.1 == k) = false := by
      cases hb : t.any (fun p => p.1 == k)
      · rfl
      · rcases List.any_eq_true.mp hb with ⟨p, hp, hpk⟩
        have hx : (a :: t).any (fun p => p.1 == k) = true :=
          List.any_eq_true.mpr ⟨p, List.mem_cons_of_mem a hp, hpk⟩
        rw [h] at hx
        simp at hx
    simpa [List.find?, ha] using ih ht

/-- Lookup after a Go map assignment finds exactly the assigned value. -/
theorem find_mapUpsert (m : List (labelMapKey × labelMapVal)) (k : labelMapKey)
    (v : labelMapVal) :
    (mapUpsert m k v).find? (fun p => p.1 == k) = some (k, v) := by
  unfold mapUpsert
  by_cases h : m.any (fun p => p.1 == k) = true
  · rw [if_pos h]; exact find_replace m k v h
  · rw [if_neg h]
    exact find_append_new m k v (Bool.eq_false_iff.mpr h)

/-- With distinct keys, a key that occurs in the index occurs in exactly
one entry. -/
theorem countKey_of_mem_distinct (m : List (labelMapKey × labelMapVal))
    (k : labelMapKey) (hd : keysDistinct m)
    (hm : m.any (fun p => p.1 == k) = true) : countKey m k = 1 := by
  induction m with
  | nil => simp at hm
  | cons a t ih =>
    rcases List.pairwise_cons.mp hd with ⟨hane, hdt⟩
    by_cases ha : (a.1 == k) = true
    · have hak : a.1 = k := beq_iff_eq.mp ha
      have ht0 : t.countP (fun p => p.1 == k) = 0 := by
        refine List.countP_eq_zero.mpr ?_
        intro p hp
        have : a.1 ≠ p.1 := hane p hp
        rw [hak] at this
        simp [beq_iff_eq]
        exact fun hc => this hc.symm
      simp [countKey, List.countP_cons, ha, ht0]
    · have ht : t.any (fun p => p.1 == k) = true := by
        rcases List.any_eq_true.mp hm with ⟨p, hp, hpk⟩
        rcases List.mem_cons.mp hp with rfl | hp
        · exact absurd hpk ha
        · exact List.any_eq_true.mpr ⟨p, hp, hpk⟩
      have := ih hdt ht
      simp [countKey, List.countP_cons, ha] at this ⊢
      exact this

/-- A Go map assignment leaves exactly one entry at the assigned key,
provided the index held at most one entry per key beforehand. -/
theorem countKey_mapUpsert (m : List (labelMapKey × labelMapVal))
    (k : labelMapKey) (v : labelMapVal) (hd : keysDistinct m) :
    countKey (mapUpsert m k v) k = 1 := by
  unfold mapUpsert
  by_cases h : m.any (fun p => p.1 == k) = true
  · rw [if_pos h]
    have hcong : countKey (m.map (fun p => if p.1 == k then (k, v) else p)) k
        = countKey m k := by
      unfold countKey
      rw [List.countP_map]
      refine List.countP_congr ?_
      intro p _
      by_cases hp : (p.1 == k) = true
      · simp [Function.comp, hp, beq_iff_eq.mp hp]
      · simp [Function.comp, hp]
    rw [hcong]
    exact countKey_of_mem_distinct m k hd h
  · rw [if_neg h]
    have h0 : countKey m k = 0 := by
      refine List.countP_eq_zero.mpr ?_
      intro p hp
      intro hc
      exact h (List.any_eq_true.mpr ⟨p, hp, hc⟩)
    unfold countKey at h0 ⊢
    simp [List.countP_append, h0, List.countP_cons]

/-- A Go map assignment preserves key distinctness: it never introduces a
second entry for any key. -/
theorem keysDistinct_mapUpsert (m : List (labelMapKey × labelMapVal))
    (k : labelMapKey) (v : labelMapVal) (hd : keysDistinct m) :
    keysDistinct (mapUpsert m k v) := by
  unfold mapUpsert
  by_cases h : m.any (fun p => p.1 == k) = true
  · rw [if_pos h]
    have hfst : ∀ p : labelMapKey × labelMapVal,
        (if p.1 == k then (k, v) else p).1 = p.1 := by
      intro p
      by_cases hp : (p.1 == k) = true
      · rw [if_pos hp]
        exact (beq_iff_eq.mp hp).symm
      · rw [if_neg hp]
    refine List.Pairwise.map _ ?_ hd
    intro p q hpq
    show (if p.1 == k then (k, v) else p).1 ≠ (if q.1 == k then (k, v) else q).1
    rw [hfst p, hfst q]
    exact hpq
  · rw [if_neg h]
    refine List.pairwise_append.mpr ⟨hd, List.pairwise_singleton _ _, ?_⟩
    intro p hp q hq
    rcases List.mem_singleton.mp hq with rfl
    intro hc
    exact h (List.any_eq_true.mpr ⟨p, hp, by simp [hc]⟩)

/-- C1: for every bucket and every label, the effective identity
(`bucket.ID` / `label.ID`) equals the platform counterpart's identity
whenever the counterpart reference `existing` is non-nil, regardless of
the local placeholder identity; when the counterpart reference is nil, it
equals the local placeholder identity (which may be the zero sentinel). -/
theorem effective_identity_resolution :
    (∀ (b : bucket) (e : InfluxBucket), bucket.existing b = some e →
      bucket.ID b = InfluxBucket.ID e) ∧
    (∀ b : bucket, bucket.existing b = none → bucket.ID b = bucket.id b) ∧
    (∀ (l : label) (e : InfluxLabel), label.existing l = some e →
      label.ID l = InfluxLabel.ID e) ∧
    (∀ l : label, label.existing l = none → label.ID l = label.id l) := by
  refine ⟨?_, ?_, ?_, ?_⟩
  · intro b e h; unfold bucket.ID; rw [h]
  · intro b h; unfold bucket.ID; rw [h]
  · intro l e h; unfold label.ID; rw [h]
  · intro l h; unfold label.ID; rw [h]

/-- Witness for C1: a bucket with nonzero placeholder 5 but an existing
counterpart of identity 42 resolves to 42; a label with placeholder 7 and
no counterpart resolves to 7. -/
theorem effective_identity_resolution_witness :
    bucket.ID (bucket.mk 5 0 "" "b1" 0 []
      (some (InfluxBucket.mk 42 0 "b1" "" 0))) = 42 ∧
    label.ID (label.mk 7 0 "L" "" "" none none) = 7 :=
  ⟨effective_identity_resolution.1
      (bucket.mk 5 0 "" "b1" 0 [] (some (InfluxBucket.mk 42 0 "b1" "" 0)))
      (InfluxBucket.mk 42 0 "b1" "" 0) rfl,
   effective_identity_resolution.2.2.2 (label.mk 7 0 "L" "" "" none none) rfl⟩

/-- C6: for every DiffBucket and every DiffLabel, `IsNew` returns true if
and only if the record's resolved identity equals the zero sentinel. -/
theorem IsNew_iff_zero_identity :
    (∀ d : DiffBucket, DiffBucket.IsNew d = true ↔ DiffBucket.ID d = 0) ∧
    (∀ d : DiffLabel, DiffLabel.IsNew d = true ↔ DiffLabel.ID d = 0) := by
  constructor
  · intro d
    simp [DiffBucket.IsNew]
  · intro d
    simp [DiffLabel.IsNew]

/-- Witness for C6 at concrete diff records with zero identity. -/
theorem IsNew_iff_zero_identity_witness :
    DiffBucket.IsNew (DiffBucket.mk 0 "b" "" "" 0 0) = true ∧
    DiffLabel.IsNew (DiffLabel.mk 0 "l" "" "" "" "") = true :=
  ⟨(IsNew_iff_zero_identity.1 _).mpr rfl,
   (IsNew_iff_zero_identity.2 _).mpr rfl⟩

/-- C9: `setBucketMapping` on a nil label receiver is a no-op that does
not fail and changes no state; on a present label whose backing index has
not yet been created, it first creates the index and then inserts the
entry, so the first call on a fresh label is recorded. -/
theorem setBucketMapping_nil_guard_and_lazy_creation :
    (∀ (b : bucket) (e : Bool), label.setBucketMapping none b e = none) ∧
    (∀ (l : label) (b : bucket) (e : Bool), label.mappings l = none →
      label.setBucketMapping (some l) b e =
        some (label.withMappings l (some
          [(labelMapKey.mk BucketsResourceType (bucket.Name b),
            labelMapVal.mk e (some (dynVal.bucketRef b)))]))) := by
  constructor
  · intro b e; rfl
  · intro l b e h
    cases l with
    | mk i o n c d m ex =>
      have hm : m = none := h
      subst hm
      rfl

/-- Witness for C9: the first association set on a fresh label is stored
in a newly created one-entry index. -/
theorem setBucketMapping_nil_guard_and_lazy_creation_witness :
    label.setBucketMapping (some (label.mk 0 0 "L" "red" "d" none none))
        (bucket.mk 1 0 "" "b1" 0 [] none) true =
      some (label.withMappings (label.mk 0 0 "L" "red" "d" none none) (some
        [(labelMapKey.mk BucketsResourceType "b1",
          labelMapVal.mk true
            (some (dynVal.bucketRef (bucket.mk 1 0 "" "b1" 0 [] none))))])) :=
  setBucketMapping_nil_guard_and_lazy_creation.2 _ _ _ rfl

/-- C10: for every label and every key of the supported bucket kind whose
index entry exists but whose stored payload is a nil interface value or
not a bucket reference, `getMappedResourceID` returns the zero sentinel
through the checked type-assertion fallback, and no failure occurs. -/
theorem getMappedResourceID_checked_assertion_fallback :
    ∀ (l : label) (k : labelMapKey) (e : Bool) (w : Option dynVal),
      labelMapKey.resType k = BucketsResourceType →
      goMapFind (label.mappings l) k = some (labelMapVal.mk e w) →
      (w = none ∨ w = some dynVal.other) →
      label.getMappedResourceID l k = 0 := by
  intro l k e w hk hf hw
  unfold label.getMappedResourceID
  rw [if_pos hk]
  have hg : goMapGet (label.mappings l) k = labelMapVal.mk e w := by
    unfold goMapGet
    rw [hf]
    rfl
  rw [hg]
  rcases hw with rfl | rfl <;> rfl

/-- Witness for C10: an index entry of the bucket kind holding a nil
payload resolves to the zero sentinel. -/
theorem getMappedResourceID_checked_assertion_fallback_witness :
    label.getMappedResourceID
      (label.mk 0 0 "L" "" ""
        (some [(labelMapKey.mk "buckets" "x", labelMapVal.mk true none)]) none)
      (labelMapKey.mk "buckets" "x") = 0 :=
  getMappedResourceID_checked_assertion_fallback _ _ true none rfl rfl (Or.inl rfl)

/-- C2: `getMappedResourceID` returns the referenced resource's effective
identity when the key carries the supported bucket kind and its index
entry holds a bucket reference; for any key of another kind — even when an
entry exists — and for a key with no entry, it returns the zero sentinel,
and there is no error path. -/
theorem getMappedResourceID_resolution :
    ∀ (l : label) (k : labelMapKey),
      (∀ (e : Bool) (b : bucket),
        labelMapKey.resType k = BucketsResourceType →
        goMapFind (label.mappings l) k =
            some (labelMapVal.mk e (some (dynVal.bucketRef b))) →
        label.getMappedResourceID l k = bucket.ID b) ∧
      (labelMapKey.resType k ≠ BucketsResourceType →
        label.getMappedResourceID l k = 0) ∧
      (goMapFind (label.mappings l) k = none →
        label.getMappedResourceID l k = 0) := by
  intro l k
  refine ⟨?_, ?_, ?_⟩
  · intro e b hk hf
    unfold label.getMappedResourceID
    rw [if_pos hk]
    have hg : goMapGet (label.mappings l) k =
        labelMapVal.mk e (some (dynVal.bucketRef b)) := by
      unfold goMapGet
      rw [hf]
      rfl
    rw [hg]
    rfl
  · intro hk
    unfold label.getMappedResourceID
    rw [if_neg hk]
  · intro hf
    have hg : goMapGet (label.mappings l) k = labelMapVal.mk false none := by
      unfold goMapGet
      rw [hf]
      rfl
    unfold label.getMappedResourceID
    by_cases hk : labelMapKey.resType k = BucketsResourceType
    · rw [if_pos hk, hg]
      rfl
    · rw [if_neg hk]

/-- Witness for C2: a bucket-kind entry resolves to the stored bucket's
effective identity 9; a dashboard-kind key with an entry resolves to the
zero sentinel; a missing key resolves to the zero sentinel. -/
theorem getMappedResourceID_resolution_witness :
    label.getMappedResourceID
        (label.mk 0 0 "L" "" ""
          (some [(labelMapKey.mk "buckets" "b1",
                  labelMapVal.mk true
                    (some (dynVal.bucketRef (bucket.mk 9 0 "" "b1" 0 [] none)))),
                 (labelMapKey.mk "dashboards" "d1",
                  labelMapVal.mk true
                    (some (dynVal.bucketRef (bucket.mk 3 0 "" "d1" 0 [] none))))])
          none)
        (labelMapKey.mk "buckets" "b1") =
      bucket.ID (bucket.mk 9 0 "" "b1" 0 [] none) ∧
    label.getMappedResourceID
        (label.mk 0 0 "L" "" ""
          (some [(labelMapKey.mk "dashboards" "d1",
                  labelMapVal.mk true
                    (some (dynVal.bucketRef (bucket.mk 3 0 "" "d1" 0 [] none))))])
          none)
        (labelMapKey.mk "dashboards" "d1") = 0 ∧
    label.getMappedResourceID (label.mk 0 0 "L" "" "" none none)
        (labelMapKey.mk "buckets" "zz") = 0 :=
  ⟨(getMappedResourceID_resolution _ _).1 true
      (bucket.mk 9 0 "" "b1" 0 [] none) rfl rfl,
   (getMappedResourceID_resolution _ _).2.1 (by decide),
   (getMappedResourceID_resolution _ _).2.2 rfl⟩

/-- Counterexample to C4 as stated: for the desired bucket with nonzero
placeholder identity 5 and no platform match, called with the zero-value
platform bucket, the produced record's ID is the zero sentinel while the
§4.1 effective identity of the desired bucket is 5. -/
theorem newDiffBucket_id_counterexample :
    DiffBucket.ID (newDiffBucket (bucket.mk 5 0 "d1" "b1" 0 [] none)
        (InfluxBucket.mk 0 0 "" "" 0)) = 0 ∧
    bucket.ID (bucket.mk 5 0 "d1" "b1" 0 [] none) = 5 ∧
    DiffBucket.ID (newDiffBucket (bucket.mk 5 0 "d1" "b1" 0 [] none)
        (InfluxBucket.mk 0 0 "" "" 0)) ≠
      bucket.ID (bucket.mk 5 0 "d1" "b1" 0 [] none) := by
  refine ⟨rfl, rfl, ?_⟩
  decide

/-- C4 (amended): `newDiffBucket` copies the platform counterpart
argument's identity into the record's ID — which equals the §4.1
effective identity when the argument is the non-nil existing counterpart,
and, with the zero-value argument for an unmatched bucket, when the
placeholder is the zero sentinel — while Name, NewDesc, NewRetention come
from the desired bucket and OldDesc, OldRetention from the counterpart
argument; no change-detection is performed. -/
theorem newDiffBucket_characterization :
    (∀ (b : bucket) (i : InfluxBucket),
      newDiffBucket b i =
        DiffBucket.mk (InfluxBucket.ID i) (bucket.Name b)
          (InfluxBucket.Description i) (bucket.Description b)
          (InfluxBucket.RetentionPeriod i) (bucket.RetentionPeriod b)) ∧
    (∀ (b : bucket) (e : InfluxBucket), bucket.existing b = some e →
      DiffBucket.ID (newDiffBucket b e) = bucket.ID b) ∧
    (∀ b : bucket, bucket.existing b = none → bucket.id b = 0 →
      DiffBucket.ID (newDiffBucket b (InfluxBucket.mk 0 0 "" "" 0)) =
        bucket.ID b) := by
  refine ⟨?_, ?_, ?_⟩
  · intro b i
    rfl
  · intro b e h
    unfold bucket.ID
    rw [h]
    rfl
  · intro b h h0
    unfold bucket.ID
    rw [h, h0]
    rfl

/-- Witness for C4: a matched bucket diff carries identity 42 and both
attribute sides; an unmatched zero-placeholder bucket diff carries the
zero sentinel, equal to the effective identity in both cases. -/
theorem newDiffBucket_characterization_witness :
    newDiffBucket
        (bucket.mk 0 0 "new" "b1" 3600 []
          (some (InfluxBucket.mk 42 0 "b1" "old" 86400)))
        (InfluxBucket.mk 42 0 "b1" "old" 86400) =
      DiffBucket.mk 42 "b1" "old" "new" 86400 3600 ∧
    DiffBucket.ID (newDiffBucket
        (bucket.mk 0 0 "new" "b1" 3600 []
          (some (InfluxBucket.mk 42 0 "b1" "old" 86400)))
        (InfluxBucket.mk 42 0 "b1" "old" 86400)) =
      bucket.ID (bucket.mk 0 0 "new" "b1" 3600 []
        (some (InfluxBucket.mk 42 0 "b1" "old" 86400))) ∧
    DiffBucket.ID (newDiffBucket (bucket.mk 0 0 "d" "b2" 0 [] none)
        (InfluxBucket.mk 0 0 "" "" 0)) =
      bucket.ID (bucket.mk 0 0 "d" "b2" 0 [] none) :=
  ⟨newDiffBucket_characterization.1
      (bucket.mk 0 0 "new" "b1" 3600 []
        (some (InfluxBucket.mk 42 0 "b1" "old" 86400)))
      (InfluxBucket.mk 42 0 "b1" "old" 86400),
   newDiffBucket_characterization.2.1
      (bucket.mk 0 0 "new" "b1" 3600 []
        (some (InfluxBucket.mk 42 0 "b1" "old" 86400)))
      (InfluxBucket.mk 42 0 "b1" "old" 86400) rfl,
   newDiffBucket_characterization.2.2 (bucket.mk 0 0 "d" "b2" 0 [] none) rfl rfl⟩

/-- Counterexample to C5 as stated: for the desired label with nonzero
placeholder identity 5 and no platform match, called with the zero-value
platform label, the produced record's ID is the zero sentinel while the
§4.1 effective identity of the desired label is 5. -/
theorem newDiffLabel_id_counterexample :
    DiffLabel.ID (newDiffLabel (label.mk 5 0 "L" "c" "d" none none)
        (InfluxLabel.mk 0 0 "" [])) = 0 ∧
    label.ID (label.mk 5 0 "L" "c" "d" none none) = 5 ∧
    DiffLabel.ID (newDiffLabel (label.mk 5 0 "L" "c" "d" none none)
        (InfluxLabel.mk 0 0 "" [])) ≠
      label.ID (label.mk 5 0 "L" "c" "d" none none) := by
  refine ⟨rfl, rfl, ?_⟩
  decide

/-- C5 (amended): `newDiffLabel` copies the platform counterpart
argument's identity into the record's ID — which equals the §4.1
effective identity when the argument is the non-nil existing counterpart,
and, with the zero-value argument for an unmatched label, when the
placeholder is the zero sentinel — while Name, NewColor, NewDesc come
from the desired label and OldColor, OldDesc are the property-map values
of the counterpart under the keys color and description, the empty string
when the map is empty or the key is absent. -/
theorem newDiffLabel_characterization :
    (∀ (l : label) (i : InfluxLabel),
      newDiffLabel l i =
        DiffLabel.mk (InfluxLabel.ID i) (label.Name l)
          (strMapGet (InfluxLabel.Properties i) "color") (label.Color l)
          (strMapGet (InfluxLabel.Properties i) "description")
          (label.Description l)) ∧
    (∀ (l : label) (e : InfluxLabel), label.existing l = some e →
      DiffLabel.ID (newDiffLabel l e) = label.ID l) ∧
    (∀ l : label, label.existing l = none → label.id l = 0 →
      DiffLabel.ID (newDiffLabel l (InfluxLabel.mk 0 0 "" [])) = label.ID l) ∧
    (∀ (m : List (String × String)) (s : String),
      m.find? (fun p => p.1 == s) = none → strMapGet m s = "") := by
  refine ⟨?_, ?_, ?_, ?_⟩
  · intro l i
    rfl
  · intro l e h
    unfold label.ID
    rw [h]
    rfl
  · intro l h h0
    unfold label.ID
    rw [h, h0]
    rfl
  · intro m s h
    unfold strMapGet
    rw [h]

/-- Witness for C5: a matched label diff carries identity 42 and the
platform property-map values as old color and description; an unmatched
zero-placeholder label diff carries the zero sentinel; a property lookup
on the empty map yields the empty string. -/
theorem newDiffLabel_characterization_witness :
    newDiffLabel
        (label.mk 0 0 "L" "red" "new" none
          (some (InfluxLabel.mk 42 0 "L"
            [("color", "blue"), ("description", "old")])))
        (InfluxLabel.mk 42 0 "L" [("color", "blue"), ("description", "old")]) =
      DiffLabel.mk 42 "L" "blue" "red" "old" "new" ∧
    DiffLabel.ID (newDiffLabel
        (label.mk 0 0 "L" "red" "new" none
          (some (InfluxLabel.mk 42 0 "L"
            [("color", "blue"), ("description", "old")])))
        (InfluxLabel.mk 42 0 "L" [("color", "blue"), ("description", "old")])) =
      label.ID (label.mk 0 0 "L" "red" "new" none
        (some (InfluxLabel.mk 42 0 "L"
          [("color", "blue"), ("description", "old")]))) ∧
    DiffLabel.ID (newDiffLabel (label.mk 0 0 "M" "c" "d" none none)
        (InfluxLabel.mk 0 0 "" [])) =
      label.ID (label.mk 0 0 "M" "c" "d" none none) ∧
    strMapGet [] "color" = "" := by
  refine ⟨?_, ?_, ?_, ?_⟩
  · have h := newDiffLabel_characterization.1
      (label.mk 0 0 "L" "red" "new" none
        (some (InfluxLabel.mk 42 0 "L"
          [("color", "blue"), ("description", "old")])))
      (InfluxLabel.mk 42 0 "L" [("color", "blue"), ("description", "old")])
    rw [h]
    rfl
  · exact newDiffLabel_characterization.2.1
      (label.mk 0 0 "L" "red" "new" none
        (some (InfluxLabel.mk 42 0 "L"
          [("color", "blue"), ("description", "old")])))
      (InfluxLabel.mk 42 0 "L" [("color", "blue"), ("description", "old")]) rfl
  · exact newDiffLabel_characterization.2.2.1
      (label.mk 0 0 "M" "c" "d" none none) rfl rfl
  · exact newDiffLabel_characterization.2.2.2 [] "color" rfl

/-- Two association keys agree exactly when their resource types and
names agree componentwise. -/
theorem key_beq_decompose (a k : labelMapKey) :
    ((labelMapKey.resType a == labelMapKey.resType k) &&
      (labelMapKey.name a == labelMapKey.name k)) = (a == k) := by
  by_cases h : a = k
  · subst h
    simp
  · rw [beq_eq_false_iff_ne.mpr h]
    cases a with
    | mk ar an =>
      cases k with
      | mk kr kn =>
        by_cases h1 : ar = kr
        · subst h1
          have h2 : ¬ an = kn := fun hc => h (by rw [hc])
          simp [beq_eq_false_iff_ne.mpr h2]
        · simp [beq_eq_false_iff_ne.mpr h1]

/-- C3: calling `setBucketMapping` twice with the same (kind, name) key
and different resource references or existence flags leaves exactly one
entry at that key, reflecting only the second call's reference and flag;
moreover a Go map assignment never lets the index hold more than one
entry per key. -/
theorem setBucketMapping_last_write_wins :
    (∀ (l : label) (b1 b2 : bucket) (e1 e2 : Bool) (l2 : label),
      bucket.Name b1 = bucket.Name b2 →
      keysDistinct (goMapEntries (label.mappings l)) →
      label.setBucketMapping (label.setBucketMapping (some l) b1 e1) b2 e2 =
        some l2 →
      countKey (goMapEntries (label.mappings l2))
          (labelMapKey.mk BucketsResourceType (bucket.Name b2)) = 1 ∧
      goMapFind (label.mappings l2)
          (labelMapKey.mk BucketsResourceType (bucket.Name b2)) =
        some (labelMapVal.mk e2 (some (dynVal.bucketRef b2))) ∧
      keysDistinct (goMapEntries (label.mappings l2))) ∧
    (∀ (m : List (labelMapKey × labelMapVal)) (k : labelMapKey)
        (v : labelMapVal),
      keysDistinct m → keysDistinct (mapUpsert m k v)) := by
  constructor
  · intro l b1 b2 e1 e2 l2 hname hd heq
    cases l with
    | mk i o n c d m ex =>
      have hstep : label.setBucketMapping
          (label.setBucketMapping (some (label.mk i o n c d m ex)) b1 e1) b2 e2 =
          some (label.mk i o n c d (some (mapUpsert
            (mapUpsert (goMapEntries m)
              (labelMapKey.mk BucketsResourceType (bucket.Name b1))
              (labelMapVal.mk e1 (some (dynVal.bucketRef b1))))
            (labelMapKey.mk BucketsResourceType (bucket.Name b2))
            (labelMapVal.mk e2 (some (dynVal.bucketRef b2))))) ex) := rfl
      rw [hstep] at heq
      rcases Option.some.inj heq with rfl
      have hd1 : keysDistinct (mapUpsert (goMapEntries m)
          (labelMapKey.mk BucketsResourceType (bucket.Name b1))
          (labelMapVal.mk e1 (some (dynVal.bucketRef b1)))) :=
        keysDistinct_mapUpsert _ _ _ hd
      refine ⟨countKey_mapUpsert _ _ _ hd1, ?_, keysDistinct_mapUpsert _ _ _ hd1⟩
      show ((mapUpsert _ _ _).find?
          (fun p => p.1 == labelMapKey.mk BucketsResourceType (bucket.Name b2))).map
          Prod.snd = _
      rw [find_mapUpsert]
      rfl
  · exact keysDistinct_mapUpsert

/-- Witness for C3: two insertions under the shared key (buckets, b) leave
a one-entry index holding only the second call's bucket and flag. -/
theorem setBucketMapping_last_write_wins_witness :
    countKey (goMapEntries (label.mappings (label.mk 0 0 "L" "" ""
        (some [(labelMapKey.mk BucketsResourceType "b",
          labelMapVal.mk true
            (some (dynVal.bucketRef (bucket.mk 2 0 "" "b" 0 [] none))))]) none)))
      (labelMapKey.mk BucketsResourceType "b") = 1 ∧
    goMapFind (label.mappings (label.mk 0 0 "L" "" ""
        (some [(labelMapKey.mk BucketsResourceType "b",
          labelMapVal.mk true
            (some (dynVal.bucketRef (bucket.mk 2 0 "" "b" 0 [] none))))]) none))
      (labelMapKey.mk BucketsResourceType "b") =
        some (labelMapVal.mk true
          (some (dynVal.bucketRef (bucket.mk 2 0 "" "b" 0 [] none)))) ∧
    keysDistinct (goMapEntries (label.mappings (label.mk 0 0 "L" "" ""
        (some [(labelMapKey.mk BucketsResourceType "b",
          labelMapVal.mk true
            (some (dynVal.bucketRef (bucket.mk 2 0 "" "b" 0 [] none))))]) none))) :=
  setBucketMapping_last_write_wins.1 (label.mk 0 0 "L" "" "" none none)
    (bucket.mk 1 0 "" "b" 0 [] none) (bucket.mk 2 0 "" "b" 0 [] none)
    false true _ rfl List.Pairwise.nil rfl

/-- C7: `mappingSummary` returns exactly one record per distinct (kind,
name) key of the association index; each record's existence flag equals
the stored flag, its LabelName and LabelID are the label's own name and
effective identity, its ResourceName and ResourceType are the key's name
and kind, and its ResourceID is resolved by `getMappedResourceID`. -/
theorem mappingSummary_characterization :
    ∀ l : label,
      (label.mappingSummary l).length =
        (goMapEntries (label.mappings l)).length ∧
      (∀ (k : labelMapKey) (v : labelMapVal),
        (k, v) ∈ goMapEntries (label.mappings l) →
        SummaryLabelMapping.mk (labelMapVal.exists_ v) (labelMapKey.name k)
            (label.Name l)
            (LabelMapping.mk (label.ID l) (label.getMappedResourceID l k)
              (labelMapKey.resType k)) ∈ label.mappingSummary l) ∧
      (keysDistinct (goMapEntries (label.mappings l)) →
        ∀ (k : labelMapKey) (v : labelMapVal),
          (k, v) ∈ goMapEntries (label.mappings l) →
          (label.mappingSummary l).countP (fun r =>
            (LabelMapping.ResourceType (SummaryLabelMapping.mapping r) ==
              labelMapKey.resType k) &&
            (SummaryLabelMapping.ResourceName r == labelMapKey.name k)) = 1) ∧
      (∀ r ∈ label.mappingSummary l,
        SummaryLabelMapping.LabelName r = label.Name l ∧
        LabelMapping.LabelID (SummaryLabelMapping.mapping r) = label.ID l) := by
  intro l
  refine ⟨?_, ?_, ?_, ?_⟩
  · show ((goMapEntries (label.mappings l)).map _).length = _
    rw [List.length_map]
  · intro k v hm
    exact List.mem_map_of_mem _ hm
  · intro hd k v hm
    show ((goMapEntries (label.mappings l)).map _).countP _ = 1
    rw [List.countP_map]
    show (goMapEntries (label.mappings l)).countP (fun p =>
      (labelMapKey.resType p.1 == labelMapKey.resType k) &&
      (labelMapKey.name p.1 == labelMapKey.name k)) = 1
    have hcong : ∀ p ∈ goMapEntries (label.mappings l),
        (((labelMapKey.resType p.1 == labelMapKey.resType k) &&
          (labelMapKey.name p.1 == labelMapKey.name k)) = true) ↔
          ((p.1 == k) = true) := by
      intro p _
      rw [key_beq_decompose p.1 k]
    have hany : (goMapEntries (label.mappings l)).any
        (fun p => p.1 == k) = true :=
      List.any_eq_true.mpr ⟨(k, v), hm, beq_self_eq_true k⟩
    exact (List.countP_congr hcong).trans
      (countKey_of_mem_distinct _ _ hd hany)
  · intro r hr
    have hr' : r ∈ (goMapEntries (label.mappings l)).map (fun p =>
        SummaryLabelMapping.mk (labelMapVal.exists_ p.2) (labelMapKey.name p.1)
          (label.Name l)
          (LabelMapping.mk (label.ID l) (label.getMappedResourceID l p.1)
            (labelMapKey.resType p.1))) := hr
    rcases List.mem_map.mp hr' with ⟨p, _, rfl⟩
    exact ⟨rfl, rfl⟩

/-- Witness for C7 on a two-entry index: two records are produced, the
bucket-kind record with stored flag true and resolved identity 9 is among
them and is the only record for its key, and its LabelName is the label's
own name. -/
theorem mappingSummary_characterization_witness :
    (label.mappingSummary (label.mk 4 0 "L" "" ""
        (some [(labelMapKey.mk "buckets" "b1",
                labelMapVal.mk true (some (dynVal.bucketRef
                  (bucket.mk 9 0 "" "b1" 0 [] none)))),
               (labelMapKey.mk "dashboards" "d1",
                labelMapVal.mk false none)]) none)).length = 2 ∧
    SummaryLabelMapping.mk true "b1" "L" (LabelMapping.mk 4 9 "buckets") ∈
      label.mappingSummary (label.mk 4 0 "L" "" ""
        (some [(labelMapKey.mk "buckets" "b1",
                labelMapVal.mk true (some (dynVal.bucketRef
                  (bucket.mk 9 0 "" "b1" 0 [] none)))),
               (labelMapKey.mk "dashboards" "d1",
                labelMapVal.mk false none)]) none) ∧
    (label.mappingSummary (label.mk 4 0 "L" "" ""
        (some [(labelMapKey.mk "buckets" "b1",
                labelMapVal.mk true (some (dynVal.bucketRef
                  (bucket.mk 9 0 "" "b1" 0 [] none)))),
               (labelMapKey.mk "dashboards" "d1",
                labelMapVal.mk false none)]) none)).countP (fun r =>
      (LabelMapping.ResourceType (SummaryLabelMapping.mapping r) == "buckets") &&
      (SummaryLabelMapping.ResourceName r == "b1")) = 1 := by
  have h := mappingSummary_characterization (label.mk 4 0 "L" "" ""
      (some [(labelMapKey.mk "buckets" "b1",
              labelMapVal.mk true (some (dynVal.bucketRef
                (bucket.mk 9 0 "" "b1" 0 [] none)))),
             (labelMapKey.mk "dashboards" "d1",
              labelMapVal.mk false none)]) none)
  have hdist : keysDistinct (goMapEntries (label.mappings (label.mk 4 0 "L" "" ""
      (some [(labelMapKey.mk "buckets" "b1",
              labelMapVal.mk true (some (dynVal.bucketRef
                (bucket.mk 9 0 "" "b1" 0 [] none)))),
             (labelMapKey.mk "dashboards" "d1",
              labelMapVal.mk false none)]) none))) := by
    refine List.Pairwise.cons ?_ (List.pairwise_singleton _ _)
    intro q hq
    rcases List.mem_singleton.mp hq with rfl
    intro hc
    exact absurd hc (by decide)
  refine ⟨h.1.trans rfl, ?_, ?_⟩
  · exact h.2.1 (labelMapKey.mk "buckets" "b1")
      (labelMapVal.mk true (some (dynVal.bucketRef
        (bucket.mk 9 0 "" "b1" 0 [] none))))
      (List.mem_cons_self _ _)
  · exact h.2.2.1 hdist (labelMapKey.mk "buckets" "b1")
      (labelMapVal.mk true (some (dynVal.bucketRef
        (bucket.mk 9 0 "" "b1" 0 [] none))))
      (List.mem_cons_self _ _)

/-- C8: `summarize` on a bucket produces a summary whose identity is the
bucket's effective identity and whose Associations hold exactly one entry
per label referencing the bucket, each carrying that label's effective
identity, name, and a property map with exactly the keys color and
description. -/
theorem summarize_bucket_characterization :
    ∀ b : bucket,
      InfluxBucket.ID (SummaryBucket.Bucket (bucket.summarize b)) =
        bucket.ID b ∧
      SummaryBucket.Associations (bucket.summarize b) =
        (bucket.labels b).map (fun l =>
          InfluxLabel.mk (label.ID l) (label.OrgID l) (label.Name l)
            (label.properties l)) ∧
      (SummaryBucket.Associations (bucket.summarize b)).length =
        (bucket.labels b).length ∧
      ∀ a ∈ SummaryBucket.Associations (bucket.summarize b),
        (InfluxLabel.Properties a).map Prod.fst = ["color", "description"] := by
  intro b
  refine ⟨rfl, rfl, ?_, ?_⟩
  · show ((bucket.labels b).map _).length = _
    rw [List.length_map]
  · intro a ha
    have ha' : a ∈ (bucket.labels b).map (fun l =>
        InfluxLabel.mk (label.ID l) (label.OrgID l) (label.Name l)
          (label.properties l)) := ha
    rcases List.mem_map.mp ha' with ⟨l, _, rfl⟩
    rfl

/-- Witness for C8: a bucket with existing identity 77 and one
referencing label summarizes to identity 77 with a single association
whose property map holds exactly the color and description keys. -/
theorem summarize_bucket_characterization_witness :
    InfluxBucket.ID (SummaryBucket.Bucket (bucket.summarize
      (bucket.mk 0 0 "d" "b1" 0 [label.mk 3 0 "lab" "red" "dd" none none]
        (some (InfluxBucket.mk 77 0 "b1" "d" 0))))) = 77 ∧
    SummaryBucket.Associations (bucket.summarize
        (bucket.mk 0 0 "d" "b1" 0 [label.mk 3 0 "lab" "red" "dd" none none]
          (some (InfluxBucket.mk 77 0 "b1" "d" 0)))) =
      [InfluxLabel.mk 3 0 "lab" [("color", "red"), ("description", "dd")]] ∧
    (InfluxLabel.Properties
        (InfluxLabel.mk 3 0 "lab" [("color", "red"), ("description", "dd")])).map
      Prod.fst = ["color", "description"] := by
  have h := summarize_bucket_characterization
    (bucket.mk 0 0 "d" "b1" 0 [label.mk 3 0 "lab" "red" "dd" none none]
      (some (InfluxBucket.mk 77 0 "b1" "d" 0)))
  refine ⟨h.1.trans rfl, h.2.1.trans rfl, ?_⟩
  refine h.2.2.2 _ ?_
  show _ ∈ [InfluxLabel.mk 3 0 "lab" [("color", "red"), ("description", "dd")]]
  exact List.mem_singleton_self _

end Pkger
